import Mathlib

/-!
Verification development for the `webviz-container-boilerplate` plugin
`WlfBestPracticePlugin` (file
`src/webviz_plugin_boilerplate/plugins/wlf_best_practice_plugin/_plugin.py`)
and its data model, business logic and view wiring as described by the
specification.  The repository ships only `_plugin.py`; the data model
(`_utils/_data_model.py`), the per-view business logic
(`_business_logic.py`) and the property serialization are referenced by
the plugin but absent, so those parts are modelled from the spec, as
marked on each definition.
-/

/-- Modelled from the spec: the `DataModel` of `_utils/_data_model.py` is
absent from the sources.  Per the spec it "holds a mapping from data-set
name to a numeric sequence" with unique names.  We embed it as an
association list from names to integer sequences. -/
structure DataModel where
  series : List (String × List Int)
deriving Repr, DecidableEq

/-- Modelled from the spec: a freshly constructed `DataModel()` holds no
series; entries are added by `populate_with_mock_data`. -/
def DataModel.empty : DataModel :=
  ⟨[]⟩

/-- Modelled from the spec: `populate_with_mock_data` loads the fixed mock
entries once.  The spec fixes series `"A" = [3,1,2]` and refers to a second
series `"B"`; the values of `"B"` are not given by the spec, so a concrete
non-empty sequence is chosen for it. -/
def DataModel.populate_with_mock_data (m : DataModel) : DataModel :=
  ⟨m.series ++ [("A", [3, 1, 2]), ("B", [2, 4, 1])]⟩

/-- Modelled from the spec: `get_series(name)` returns the sequence mapped
to `name`; an unknown name is a fail-fast precondition violation, embedded
as `none`. -/
def DataModel.get_series (m : DataModel) (name : String) : Option (List Int) :=
  (m.series.find? (fun p => p.1 == name)).map (fun p => p.2)

/-- Modelled from the spec: enumeration of the available data-set names. -/
def DataModel.get_series_names (m : DataModel) : List String :=
  m.series.map (fun p => p.1)

/-- The data model held by the plugin after construction: created empty and
populated with the mock data once (source `_plugin.py` lines 84-85). -/
def mockDataModel : DataModel :=
  DataModel.empty.populate_with_mock_data

/-- Modelled from the spec: the plot view's transform modes
(raw / reversed / flipped). -/
inductive VisualizationMode where
  | raw : VisualizationMode
  | reversedMode : VisualizationMode
  | flipped : VisualizationMode
deriving Repr, DecidableEq

/-- Modelled from the spec: the table view's sort orders. -/
inductive SortOrder where
  | ascending : SortOrder
  | descending : SortOrder
deriving Repr, DecidableEq

/-- Modelled from the spec: the plot's chart kinds (line plot / bar chart). -/
inductive ChartKind where
  | line : ChartKind
  | bar : ChartKind
deriving Repr, DecidableEq

/-- Modelled from the spec: the derivation logic of `_business_logic.py`.
Given a sequence and a transform mode it produces a new sequence:
raw is an identity copy, reversed puts the elements in reverse order, and
flipped mirrors each element about the reference value `ref`
(value-inversion; with `ref = 0` this is element-wise negation). -/
def applyVisualization (mode : VisualizationMode) (ref : Int) (xs : List Int) : List Int :=
  match mode with
  | VisualizationMode.raw => xs
  | VisualizationMode.reversedMode => xs.reverse
  | VisualizationMode.flipped => xs.map (fun x => 2 * ref - x)

/-- Modelled from the spec: given a sequence and a sort order, produce a
stably sorted copy by value (insertion sort is stable). -/
def sortSeries (ord : SortOrder) (xs : List Int) : List Int :=
  match ord with
  | SortOrder.ascending => List.insertionSort (fun a b => a ≤ b) xs
  | SortOrder.descending => List.insertionSort (fun a b => b ≤ a) xs

/-- Modelled from the spec: de-serialization of the plot visualization-mode
callback property (`_prop_serialization.py`); an unknown mode string is a
fail-fast error, embedded as `none`. -/
def visualizationModeFromString (s : String) : Option VisualizationMode :=
  if s = "raw" then some VisualizationMode.raw
  else if s = "reversed" then some VisualizationMode.reversedMode
  else if s = "flipped" then some VisualizationMode.flipped
  else none

/-- Modelled from the spec: de-serialization of the table sort-order
callback property; an unknown order string is a fail-fast error. -/
def sortOrderFromString (s : String) : Option SortOrder :=
  if s = "ascending" then some SortOrder.ascending
  else if s = "descending" then some SortOrder.descending
  else none

/-- Modelled from the spec: de-serialization of the chart-kind callback
property; an unknown kind string is a fail-fast error. -/
def chartKindFromString (s : String) : Option ChartKind :=
  if s = "line" then some ChartKind.line
  else if s = "bar" then some ChartKind.bar
  else none

/-- Modelled from the spec: renderable chart descriptor produced by the
plot builder from a sequence and a chosen chart kind. -/
structure ChartDescriptor where
  kind : ChartKind
  values : List Int
deriving Repr, DecidableEq

/-- Modelled from the spec: renderable tabular descriptor, rows of
index/value. -/
structure TableDescriptor where
  rows : List (Nat × Int)
deriving Repr, DecidableEq

/-- Modelled from the spec: the plot builder. -/
def buildChart (kind : ChartKind) (xs : List Int) : ChartDescriptor :=
  ⟨kind, xs⟩

/-- Modelled from the spec: the table builder. -/
def buildTable (xs : List Int) : TableDescriptor :=
  ⟨(List.range xs.length).zip xs⟩

/-- Arguments the plugin passes to the `WebvizPluginABC` base-class
constructor (`super().__init__(screenshot_filename, True)` in
`_plugin.py`). -/
structure BaseInit where
  screenshot_filename : String
  stretch : Bool
deriving Repr, DecidableEq

/-- A Dash `Input` slot: a component unique id together with the watched
property (`_plugin.py` builds `Input(<component id>, "value")`). -/
structure ViewSlot where
  componentId : String
  property : String
deriving Repr, DecidableEq

/-- Modelled from the spec: the unique component id of the shared
`DataNameSelection` radio items.  `_shared_settings` is absent from the
sources; the concrete string is irrelevant, only that both views are wired
to the same one. -/
def dataNameSelectionRadioItemsId : String :=
  "shared-settings-radio-items"

/-- The plot view as constructed by the plugin: it receives the plugin's
data model and a `data_name_selector` slot (`_plugin.py` lines 92-106). -/
structure PlotViewS where
  dataModel : DataModel
  data_name_selector : ViewSlot
deriving Repr, DecidableEq

/-- The table view as constructed by the plugin: it receives the plugin's
data model and a `data_name_selector` slot (`_plugin.py` lines 107-119). -/
structure TableViewS where
  dataModel : DataModel
  data_name_selector : ViewSlot
deriving Repr, DecidableEq

/-- The plugin object built by `WlfBestPracticePlugin.__init__`. -/
structure WlfBestPracticePluginS where
  baseInit : BaseInit
  dataModel : DataModel
  sharedSettingsId : String
  plotViewId : String
  tableViewId : String
  plotView : PlotViewS
  tableView : TableViewS
deriving Repr, DecidableEq

/-- Embedding of `WlfBestPracticePlugin.__init__` (`_plugin.py` lines
79-119): the base class is initialized with `(screenshot_filename, True)`
regardless of `_stretch`; one data model is created and populated with the
mock data; both views are constructed over that same data model, each with
a `data_name_selector` slot that is an `Input` on the `"value"` property
of the same shared radio-items component. -/
def wlfBestPracticePluginInit (screenshot_filename : String) ( _stretch : Bool) :
    WlfBestPracticePluginS :=
  { baseInit := ⟨screenshot_filename, true⟩
    dataModel := mockDataModel
    sharedSettingsId := "shared-settings"
    plotViewId := "plot-view"
    tableViewId := "table-view"
    plotView := ⟨mockDataModel, ⟨dataNameSelectionRadioItemsId, "value"⟩⟩
    tableView := ⟨mockDataModel, ⟨dataNameSelectionRadioItemsId, "value"⟩⟩ }

/-- Modelled from the spec: the runtime state relevant to the two views —
the read-only data model plus the transient selection state owned by the
UI controls (shared selected name, plot visualization mode, chart kind,
table sort order). -/
structure PluginState where
  dataModel : DataModel
  selectedName : String
  plotMode : VisualizationMode
  chartKind : ChartKind
  tableOrder : SortOrder
deriving Repr, DecidableEq

/-- Modelled from the spec: the user interaction events — changing the
shared selection or one of the per-view local settings. -/
inductive UIEvent where
  | selectName : String → UIEvent
  | setPlotMode : VisualizationMode → UIEvent
  | setChartKind : ChartKind → UIEvent
  | setTableOrder : SortOrder → UIEvent
deriving Repr, DecidableEq

/-- Modelled from the spec: an interaction event updates only the
transient selection state; the data model is never touched. -/
def applyEvent (st : PluginState) (e : UIEvent) : PluginState :=
  match e with
  | UIEvent.selectName name =>
      ⟨st.dataModel, name, st.plotMode, st.chartKind, st.tableOrder⟩
  | UIEvent.setPlotMode m =>
      ⟨st.dataModel, st.selectedName, m, st.chartKind, st.tableOrder⟩
  | UIEvent.setChartKind k =>
      ⟨st.dataModel, st.selectedName, st.plotMode, k, st.tableOrder⟩
  | UIEvent.setTableOrder o =>
      ⟨st.dataModel, st.selectedName, st.plotMode, st.chartKind, o⟩

/-- The state right after plugin construction: the populated mock data
model together with initial control values. -/
def initialState (screenshot_filename : String) ( _stretch : Bool) : PluginState :=
  ⟨(wlfBestPracticePluginInit screenshot_filename _stretch).dataModel,
    "A", VisualizationMode.raw, ChartKind.line, SortOrder.ascending⟩

/-- Modelled from the spec: the plot view's update logic — read the
selected series from the model, apply the chosen visualization transform
(reference value 0, i.e. plain negation for `flipped`) and build the chart
descriptor.  An unknown selected name fails fast (`none`). -/
def plotOutput (st : PluginState) : Option ChartDescriptor :=
  (st.dataModel.get_series st.selectedName).map
    (fun xs => buildChart st.chartKind (applyVisualization st.plotMode 0 xs))

/-- Modelled from the spec: the table view's update logic — read the
selected series from the model, sort it by the chosen order and build the
tabular descriptor.  An unknown selected name fails fast (`none`). -/
def tableOutput (st : PluginState) : Option TableDescriptor :=
  (st.dataModel.get_series st.selectedName).map
    (fun xs => buildTable (sortSeries st.tableOrder xs))

/-- Modelled from the spec: one synchronous recomputation of both views'
callbacks.  The callbacks only read state and emit their outputs, so the
state component of the result is the input state. -/
def runCallbacks (st : PluginState) :
    PluginState × (Option ChartDescriptor × Option TableDescriptor) :=
  (st, (plotOutput st, tableOutput st))

theorem applyEvent_dataModel (st : PluginState) (e : UIEvent) :
    (applyEvent st e).dataModel = st.dataModel := by
  cases e <;> rfl

theorem foldl_applyEvent_dataModel (events : List UIEvent) (st : PluginState) :
    (events.foldl applyEvent st).dataModel = st.dataModel := by
  induction events generalizing st with
  | nil => rfl
  | cons e t ih => rw [List.foldl_cons, ih, applyEvent_dataModel]

/-- C1: for every name among the known data-set names, `get_series(name)`
returns a non-empty sequence, and two calls with the same name return the
same sequence. -/
theorem get_series_known_names_nonempty_deterministic (name : String)
    (h : name ∈ mockDataModel.get_series_names) :
    (∃ xs, mockDataModel.get_series name = some xs ∧ xs ≠ []) ∧
    mockDataModel.get_series name = mockDataModel.get_series name := by
  have h2 : name = "A" ∨ name = "B" := by
    simpa [mockDataModel, DataModel.empty, DataModel.populate_with_mock_data,
      DataModel.get_series_names] using h
  rcases h2 with rfl | rfl
  · exact ⟨⟨[3, 1, 2], by decide, by decide⟩, rfl⟩
  · exact ⟨⟨[2, 4, 1], by decide, by decide⟩, rfl⟩

/-- Witness for C1 at the known name `"A"`. -/
theorem get_series_known_names_nonempty_deterministic_witness :
    "A" ∈ mockDataModel.get_series_names ∧
    ((∃ xs, mockDataModel.get_series "A" = some xs ∧ xs ≠ []) ∧
      mockDataModel.get_series "A" = mockDataModel.get_series "A") :=
  ⟨by decide, get_series_known_names_nonempty_deterministic "A" (by decide)⟩

/-- C2: `get_series` succeeds exactly on the known names and fails fast
(`none`) on unknown ones; de-serializing a transform / sort / chart-kind
mode succeeds exactly on the known mode strings and fails fast otherwise;
and running the view callbacks has no side effect on the state. -/
theorem fail_fast_on_unknown_name_or_mode (m : DataModel) (name s : String) :
    ((m.get_series name).isSome ↔ name ∈ m.get_series_names) ∧
    ((visualizationModeFromString s).isSome ↔
      s = "raw" ∨ s = "reversed" ∨ s = "flipped") ∧
    ((sortOrderFromString s).isSome ↔ s = "ascending" ∨ s = "descending") ∧
    ((chartKindFromString s).isSome ↔ s = "line" ∨ s = "bar") ∧
    (∀ st : PluginState, (runCallbacks st).1 = st) := by
  refine ⟨?_, ?_, ?_, ?_, fun st => rfl⟩
  · obtain ⟨l⟩ := m
    simp [DataModel.get_series, DataModel.get_series_names, List.find?_isSome,
      List.mem_map]
  · by_cases h1 : s = "raw" <;> by_cases h2 : s = "reversed" <;>
      by_cases h3 : s = "flipped" <;> simp [visualizationModeFromString, h1, h2, h3]
  · by_cases h1 : s = "ascending" <;> by_cases h2 : s = "descending" <;>
      simp [sortOrderFromString, h1, h2]
  · by_cases h1 : s = "line" <;> by_cases h2 : s = "bar" <;>
      simp [chartKindFromString, h1, h2]

/-- C3: the reversed transform is an involution — applying it twice
returns the original sequence. -/
theorem reversed_transform_involution (ref : Int) (xs : List Int) :
    applyVisualization VisualizationMode.reversedMode ref
      (applyVisualization VisualizationMode.reversedMode ref xs) = xs := by
  simp [applyVisualization]

/-- C4: the flip (value-inversion about a fixed reference point) transform
is an involution — applying it twice returns the original sequence. -/
theorem flipped_transform_involution (ref : Int) (xs : List Int) :
    applyVisualization VisualizationMode.flipped ref
      (applyVisualization VisualizationMode.flipped ref xs) = xs := by
  have h : ((fun x : Int => 2 * ref - x) ∘ fun x : Int => 2 * ref - x) = id := by
    funext x
    simp [Function.comp]
  simp [applyVisualization, List.map_map, h]

/-- C5: for a sequence with pairwise distinct values, sorting ascending
and then reversing yields the descending sort. -/
theorem sort_ascending_reverse_eq_descending (xs : List Int) ( _hnd : xs.Nodup) :
    (sortSeries SortOrder.ascending xs).reverse = sortSeries SortOrder.descending xs := by
  show (List.insertionSort (fun a b => a ≤ b) xs).reverse =
    List.insertionSort (fun a b => b ≤ a) xs
  haveI hTot : IsTotal Int (fun a b : Int => b ≤ a) := ⟨fun a b => le_total b a⟩
  haveI hTrans : IsTrans Int (fun a b : Int => b ≤ a) :=
    ⟨fun a b c hab hbc => le_trans hbc hab⟩
  haveI hAnti : IsAntisymm Int (fun a b : Int => b ≤ a) :=
    ⟨fun a b h1 h2 => le_antisymm h2 h1⟩
  apply List.eq_of_perm_of_sorted (r := fun a b : Int => b ≤ a)
  · exact ((List.reverse_perm _).trans
      (List.perm_insertionSort _ xs)).trans (List.perm_insertionSort _ xs).symm
  · exact List.pairwise_reverse.2 (List.sorted_insertionSort _ xs)
  · exact List.sorted_insertionSort _ xs

/-- Witness for C5 at the distinct-valued sequence `[3,1,2]`. -/
theorem sort_ascending_reverse_eq_descending_witness :
    ([3, 1, 2] : List Int).Nodup ∧
    (sortSeries SortOrder.ascending [3, 1, 2]).reverse =
      sortSeries SortOrder.descending [3, 1, 2] :=
  ⟨by decide, sort_ascending_reverse_eq_descending [3, 1, 2] (by decide)⟩

/-- C6: on the mock series `"A" = [3,1,2]`: raw gives `[3,1,2]`, reversed
gives `[2,1,3]`, the ascending sort gives `[1,2,3]` and the descending
sort gives `[3,2,1]`. -/
theorem mock_series_A_example :
    mockDataModel.get_series "A" = some [3, 1, 2] ∧
    applyVisualization VisualizationMode.raw 0 [3, 1, 2] = [3, 1, 2] ∧
    applyVisualization VisualizationMode.reversedMode 0 [3, 1, 2] = [2, 1, 3] ∧
    sortSeries SortOrder.ascending [3, 1, 2] = [1, 2, 3] ∧
    sortSeries SortOrder.descending [3, 1, 2] = [3, 2, 1] := by
  refine ⟨by decide, rfl, by decide, by decide, by decide⟩

/-- C7: the derivation logic is pure — the views' outputs are functions of
exactly the inputs they read (the selected series, the transform mode, the
chart kind, the sort order), so two states agreeing on those produce equal
outputs, and running the callbacks leaves the state (in particular the
data model and the input sequences) unchanged. -/
theorem derivation_functions_pure (st₁ st₂ : PluginState)
    (hser : st₁.dataModel.get_series st₁.selectedName =
      st₂.dataModel.get_series st₂.selectedName)
    (hm : st₁.plotMode = st₂.plotMode) (hk : st₁.chartKind = st₂.chartKind)
    (ho : st₁.tableOrder = st₂.tableOrder) :
    plotOutput st₁ = plotOutput st₂ ∧ tableOutput st₁ = tableOutput st₂ ∧
    (runCallbacks st₁).1 = st₁ ∧ (runCallbacks st₂).1 = st₂ := by
  refine ⟨?_, ?_, rfl, rfl⟩
  · simp [plotOutput, hser, hm, hk]
  · simp [tableOutput, hser, ho]

/-- Witness for C7: two states over different data models that agree on
the selected series and the local settings yield identical outputs. -/
theorem derivation_functions_pure_witness :
    ((⟨mockDataModel, "A", VisualizationMode.raw, ChartKind.line,
        SortOrder.ascending⟩ : PluginState).dataModel.get_series "A" =
      (⟨⟨[("A", [3, 1, 2])]⟩, "A", VisualizationMode.raw, ChartKind.line,
        SortOrder.ascending⟩ : PluginState).dataModel.get_series "A") ∧
    (plotOutput ⟨mockDataModel, "A", VisualizationMode.raw, ChartKind.line,
        SortOrder.ascending⟩ =
      plotOutput ⟨⟨[("A", [3, 1, 2])]⟩, "A", VisualizationMode.raw, ChartKind.line,
        SortOrder.ascending⟩ ∧
      tableOutput ⟨mockDataModel, "A", VisualizationMode.raw, ChartKind.line,
        SortOrder.ascending⟩ =
        tableOutput ⟨⟨[("A", [3, 1, 2])]⟩, "A", VisualizationMode.raw, ChartKind.line,
          SortOrder.ascending⟩ ∧
      (runCallbacks ⟨mockDataModel, "A", VisualizationMode.raw, ChartKind.line,
        SortOrder.ascending⟩).1 =
        ⟨mockDataModel, "A", VisualizationMode.raw, ChartKind.line,
          SortOrder.ascending⟩ ∧
      (runCallbacks ⟨⟨[("A", [3, 1, 2])]⟩, "A", VisualizationMode.raw, ChartKind.line,
        SortOrder.ascending⟩).1 =
        ⟨⟨[("A", [3, 1, 2])]⟩, "A", VisualizationMode.raw, ChartKind.line,
          SortOrder.ascending⟩) :=
  ⟨by decide, derivation_functions_pure _ _ (by decide) rfl rfl rfl⟩

/-- C8: the named-series mapping is populated exactly once at plugin
construction (it equals the fixed mock mapping right after `__init__`),
and no subsequent operation — any sequence of UI events, or running the
view callbacks — changes it. -/
theorem data_model_populated_once_and_invariant (sf : String) (b : Bool)
    (events : List UIEvent) :
    (initialState sf b).dataModel = mockDataModel ∧
    mockDataModel.series = [("A", [3, 1, 2]), ("B", [2, 4, 1])] ∧
    (events.foldl applyEvent (initialState sf b)).dataModel = mockDataModel ∧
    (∀ st : PluginState, (runCallbacks st).1.dataModel = st.dataModel) := by
  refine ⟨rfl, rfl, ?_, fun st => rfl⟩
  rw [foldl_applyEvent_dataModel]
  rfl

/-- C9: after changing the shared selection to `"B"`, the plot and table
outputs are functions of series `"B"` and the local settings only — the
previously selected name does not occur in either expression — and the
plugin wires both views to the same shared radio-items `Input` and the
same data model. -/
theorem select_B_updates_both_views (st : PluginState) (sf : String) (b : Bool) :
    plotOutput (applyEvent st (UIEvent.selectName "B")) =
      (st.dataModel.get_series "B").map
        (fun xs => buildChart st.chartKind (applyVisualization st.plotMode 0 xs)) ∧
    tableOutput (applyEvent st (UIEvent.selectName "B")) =
      (st.dataModel.get_series "B").map
        (fun xs => buildTable (sortSeries st.tableOrder xs)) ∧
    (wlfBestPracticePluginInit sf b).plotView.data_name_selector =
      (wlfBestPracticePluginInit sf b).tableView.data_name_selector ∧
    (wlfBestPracticePluginInit sf b).plotView.dataModel =
      (wlfBestPracticePluginInit sf b).dataModel ∧
    (wlfBestPracticePluginInit sf b).tableView.dataModel =
      (wlfBestPracticePluginInit sf b).dataModel :=
  ⟨rfl, rfl, rfl, rfl, rfl⟩

/-- C10: `WlfBestPracticePlugin.__init__` passes `stretch = True` to the
base class for every value of the `_stretch` parameter, so construction is
identical whether `_stretch` is `True` or `False`. -/
theorem stretch_parameter_ignored (sf : String) (b₁ b₂ : Bool) :
    (wlfBestPracticePluginInit sf b₁).baseInit = ⟨sf, true⟩ ∧
    wlfBestPracticePluginInit sf b₁ = wlfBestPracticePluginInit sf b₂ :=
  ⟨rfl, rfl⟩
